import Mathlib

/-!
Shallow embedding of `src/main.py` of pyflared-ddns: a dynamic-DNS client
that resolves the host's public IPv4/IPv6 addresses and reconciles a DNS
zone's A/AAAA records (list / create / update) against them.

External effects (the HTTP IP-echo lookups and the Cloudflare API calls)
are modelled by explicit behaviour oracles plus an event trace: each
function returns its Python return value together with the list of
outbound calls it issued, in order.
-/

/-- A DNS record as surfaced by the provider's list endpoint; the fields
are the ones `main.py` reads (`record.type`, `record.name`,
`record.content`, `record.id`, `record.zone_id`). -/
structure DnsRecord where
  type : String
  name : String
  content : String
  id : String
  zone_id : String
  deriving DecidableEq, Repr

/-- Result of one HTTP GET to an IP-echo endpoint: `ok text` is a
successful response body, `err` is any `requests.exceptions.RequestException`
(network error or non-success status via `raise_for_status`). -/
inductive HttpResult where
  | ok (text : String)
  | err
  deriving DecidableEq, Repr

/-- Result of `cf.dns.records.list`: the sequence of records, or an
exception (ProviderError). -/
inductive ListResult where
  | ok (records : List DnsRecord)
  | err
  deriving DecidableEq, Repr

/-- Behaviour oracle for the DNS provider within one run: what the list
call returns, and whether the create / update calls raise. -/
structure ProviderBehavior where
  listResp : ListResult
  createFails : Bool
  updateFails : Bool
  deriving DecidableEq, Repr

/-- An outbound call to the DNS provider API. `delete` is in the
alphabet so that "the tool never deletes" is a statement about traces,
but no embedded function emits it (`main.py` has no delete call). -/
inductive ApiCall where
  | list (zone_id : String)
  | create (zone_id content name rtype : String) (ttl : Nat) (proxied : Bool)
  | update (zone_id name content rtype dns_record_id : String)
  | delete (zone_id dns_record_id : String)
  deriving DecidableEq, Repr

/-- An observable event of a run: an IP-echo lookup for a family, an
invocation of the reconciler `sync_dns_record` (one per call site in
`main`), or an outbound provider API call. -/
inductive Event where
  | ipLookup (version : Nat)
  | sync (zone_id record_type hostname ip : String)
  | api (c : ApiCall)
  deriving DecidableEq, Repr

/-- The `for record in dns_records` loop of `find_dns_record`: first
record whose `type` and `name` both match, else `None`. -/
def findFirst (record_type hostname : String) : List DnsRecord → Option DnsRecord
  | [] => none
  | r :: rest =>
      if r.type = record_type ∧ r.name = hostname then some r
      else findFirst record_type hostname rest

/-- Embeds `find_dns_record(cf, zone_id, record_type, hostname)`: issues the
list call; on success scans for the first matching record; the
`except Exception` clause turns a failed list call into `None` as well. -/
def find_dns_record (b : ProviderBehavior) (zone_id record_type hostname : String) :
    Option DnsRecord × List ApiCall :=
  match b.listResp with
  | ListResult.ok records => (findFirst record_type hostname records, [ApiCall.list zone_id])
  | ListResult.err => (none, [ApiCall.list zone_id])

/-- Outcome of the underlying `cf.dns.records.create` call. -/
def cfCreate (fails : Bool) : Except String Unit :=
  if fails then Except.error "ProviderError" else Except.ok ()

/-- Outcome of the underlying `cf.dns.records.update` call. -/
def cfUpdate (fails : Bool) : Except String Unit :=
  if fails then Except.error "ProviderError" else Except.ok ()

/-- Embeds `create_dns_record(cf, zone_id, record_type, hostname, content)`:
issues one create call with `ttl=1` ("automatic") and `proxied=False`;
the `except Exception` clause logs and swallows a failure, so the
function returns normally either way. -/
def create_dns_record (b : ProviderBehavior) (zone_id record_type hostname content : String) :
    Unit × List ApiCall :=
  match cfCreate b.createFails with
  | Except.ok _ => ((), [ApiCall.create zone_id content hostname record_type 1 false])
  | Except.error _ => ((), [ApiCall.create zone_id content hostname record_type 1 false])

/-- Embeds `update_dns_record(cf, zone_id, hostname, content, record_type,
dns_record_id)`: issues one update call; failure is logged and
swallowed. -/
def update_dns_record (b : ProviderBehavior)
    (zone_id hostname content record_type dns_record_id : String) :
    Unit × List ApiCall :=
  match cfUpdate b.updateFails with
  | Except.ok _ => ((), [ApiCall.update zone_id hostname content record_type dns_record_id])
  | Except.error _ => ((), [ApiCall.update zone_id hostname content record_type dns_record_id])

/-- Embeds `sync_dns_record(cf, zone_id, record_type, hostname, public_ip)`:
find the record; if found and its content differs, update it (passing
the found record's `zone_id`, `type` and `id`); if found and equal,
no-op; if not found, create it. Returns the trace of provider calls. -/
def sync_dns_record (b : ProviderBehavior) (zone_id record_type hostname public_ip : String) :
    List ApiCall :=
  let found := find_dns_record b zone_id record_type hostname
  match found.1 with
  | some r =>
      if r.content ≠ public_ip then
        found.2 ++ (update_dns_record b r.zone_id hostname public_ip r.type r.id).2
      else
        found.2
  | none =>
      found.2 ++ (create_dns_record b zone_id record_type hostname public_ip).2

/-- The body of the `try` block of `get_public_ip`: GET the endpoint of
the family, return the body on success, `None` on a request exception. -/
def fetchIp (b : Nat → HttpResult) (version : Nat) : Option String × List Event :=
  match b version with
  | HttpResult.ok text => (some text, [Event.ipLookup version])
  | HttpResult.err => (none, [Event.ipLookup version])

/-- Embeds `get_public_ip(version)`: version 4 and 6 select their endpoints;
any other value raises `ValueError` before any request is made. -/
def get_public_ip (b : Nat → HttpResult) (version : Nat) :
    Except String (Option String) × List Event :=
  if version = 4 then (Except.ok (fetchIp b 4).1, (fetchIp b 4).2)
  else if version = 6 then (Except.ok (fetchIp b 6).1, (fetchIp b 6).2)
  else (Except.error "IP version should be 4 or 6", [])

/-- Python truthiness of an optional string (`if not api_token`,
`if public_ipv4`): `None` and the empty string are falsy. -/
def truthy : Option String → Bool
  | none => false
  | some s => !s.isEmpty

/-- Embeds `get_cloudflare_client()`: raises `ValueError` when `CF_TOKEN` is
absent or empty; otherwise constructs the client (no network call). -/
def get_cloudflare_client (cf_token : Option String) : Except String Unit :=
  if truthy cf_token then Except.ok ()
  else Except.error "Cloudflare API token (CF_TOKEN) not found in .env file."

/-- The CLI flags `--ipv4`, `--ipv6`, `--both` (store_true booleans). -/
structure Args where
  ipv4 : Bool
  ipv6 : Bool
  both : Bool
  deriving DecidableEq, Repr

/-- The environment: values of `CF_TOKEN`, `CF_HOSTNAME`, `CF_ZONE-ID`
(`none` when the variable is absent). -/
structure Env where
  cf_token : Option String
  cf_hostname : Option String
  cf_zone_id : Option String
  deriving DecidableEq, Repr

/-- Trace of one call site `sync_dns_record(cf, zone_id, rt, hostname, ip)`
in `main`: the invocation event followed by the provider calls it issues. -/
def syncEvents (pb : ProviderBehavior) (zone_id record_type hostname ip : String) : List Event :=
  Event.sync zone_id record_type hostname ip ::
    (sync_dns_record pb zone_id record_type hostname ip).map Event.api

/-- The guarded call pattern `if public_ip: sync_dns_record(...)` of
`main`: sync only when the fetched value is truthy. -/
def maybeSync (pb : ProviderBehavior) (zone_id record_type hostname : String)
    (ip : Option String) : List Event :=
  if truthy ip then syncEvents pb zone_id record_type hostname (ip.getD "") else []

/-- Extract the returned value of `get_public_ip`; for versions 4 and 6
the function never raises, so the error branch is unreachable at the
call sites in `main_run`. -/
def ipValue : Except String (Option String) → Option String
  | Except.ok v => v
  | Except.error _ => none

/-- Embeds `main()`: load client and configuration (each missing variable
raises before any network call), fetch both public IPs, then run the
three flag branches, each re-fetching the IPs it uses and syncing the
records whose fetch was truthy. Returns the outcome (the uncaught
`ValueError`s, or normal exit) and the event trace. -/
def main_run (env : Env) (args : Args) (ib : Nat → HttpResult) (pb : ProviderBehavior) :
    Except String Unit × List Event :=
  match get_cloudflare_client env.cf_token with
  | Except.error e => (Except.error e, [])
  | Except.ok _ =>
    if truthy env.cf_hostname = false then
      (Except.error "Host name (CF_HOSTNAME) not found in .env file.", [])
    else if truthy env.cf_zone_id = false then
      (Except.error "Zone name (CF_ZONE-ID) not found in .env file.", [])
    else
      let hostname := Option.getD env.cf_hostname ""
      let zone_id := Option.getD env.cf_zone_id ""
      let pre4 := get_public_ip ib 4
      let pre6 := get_public_ip ib 6
      let tBoth :=
        if args.both || (!args.ipv4 && !args.ipv6) then
          let r4 := get_public_ip ib 4
          let r6 := get_public_ip ib 6
          r4.2 ++ r6.2 ++
            maybeSync pb zone_id "A" hostname (ipValue r4.1) ++
            maybeSync pb zone_id "AAAA" hostname (ipValue r6.1)
        else []
      let t4 :=
        if args.ipv4 then
          let r4 := get_public_ip ib 4
          r4.2 ++ maybeSync pb zone_id "A" hostname (ipValue r4.1)
        else []
      let t6 :=
        if args.ipv6 then
          let r6 := get_public_ip ib 6
          r6.2 ++ maybeSync pb zone_id "AAAA" hostname (ipValue r6.1)
        else []
      (Except.ok (), pre4.2 ++ pre6.2 ++ tBoth ++ t4 ++ t6)

/-- Predicate picking out create calls in a provider-call trace. -/
def isCreate : ApiCall → Bool
  | ApiCall.create _ _ _ _ _ _ => true
  | _ => false

/-- Predicate picking out update calls in a provider-call trace. -/
def isUpdate : ApiCall → Bool
  | ApiCall.update _ _ _ _ _ => true
  | _ => false

/-- Predicate picking out delete calls in a provider-call trace. -/
def isDeleteCall : ApiCall → Bool
  | ApiCall.delete _ _ => true
  | _ => false

/-- Predicate picking out delete calls in an event trace. -/
def isDeleteEvent : Event → Bool
  | Event.api c => isDeleteCall c
  | _ => false

/-- Predicate picking out the reconciler invocations for a record type. -/
def isSyncFor (t : String) : Event → Bool
  | Event.sync _ record_type _ _ => record_type == t
  | _ => false

/-- Predicate picking out the IP lookups for a family. -/
def isLookup (v : Nat) : Event → Bool
  | Event.ipLookup w => w == v
  | _ => false

/-- Whatever the provider does, the create wrapper returns normally and
issues exactly one create call, with TTL 1 and proxying disabled. -/
theorem create_dns_record_eq (b : ProviderBehavior)
    (zone_id record_type hostname content : String) :
    create_dns_record b zone_id record_type hostname content
      = ((), [ApiCall.create zone_id content hostname record_type 1 false]) := by
  unfold create_dns_record cfCreate
  cases b.createFails <;> rfl

/-- Whatever the provider does, the update wrapper returns normally and
issues exactly one update call. -/
theorem update_dns_record_eq (b : ProviderBehavior)
    (zone_id hostname content record_type dns_record_id : String) :
    update_dns_record b zone_id hostname content record_type dns_record_id
      = ((), [ApiCall.update zone_id hostname content record_type dns_record_id]) := by
  unfold update_dns_record cfUpdate
  cases b.updateFails <;> rfl

/-- When the list succeeds and no record matches, sync lists then creates. -/
theorem sync_dns_record_eq_create (b : ProviderBehavior) (records : List DnsRecord)
    (zone_id record_type hostname public_ip : String)
    (hl : b.listResp = ListResult.ok records)
    (hnone : findFirst record_type hostname records = none) :
    sync_dns_record b zone_id record_type hostname public_ip
      = [ApiCall.list zone_id,
         ApiCall.create zone_id public_ip hostname record_type 1 false] := by
  simp [sync_dns_record, find_dns_record, hl, hnone, create_dns_record_eq]

/-- When the list succeeds and the first match is already current, sync
only lists. -/
theorem sync_dns_record_eq_noop (b : ProviderBehavior) (records : List DnsRecord)
    (r : DnsRecord) (zone_id record_type hostname public_ip : String)
    (hl : b.listResp = ListResult.ok records)
    (hsome : findFirst record_type hostname records = some r)
    (heq : r.content = public_ip) :
    sync_dns_record b zone_id record_type hostname public_ip = [ApiCall.list zone_id] := by
  simp [sync_dns_record, find_dns_record, hl, hsome, heq]

/-- When the list succeeds and the first match is stale, sync lists then
updates, addressing the found record's zone, type and id. -/
theorem sync_dns_record_eq_update (b : ProviderBehavior) (records : List DnsRecord)
    (r : DnsRecord) (zone_id record_type hostname public_ip : String)
    (hl : b.listResp = ListResult.ok records)
    (hsome : findFirst record_type hostname records = some r)
    (hne : r.content ≠ public_ip) :
    sync_dns_record b zone_id record_type hostname public_ip
      = [ApiCall.list zone_id,
         ApiCall.update r.zone_id hostname public_ip r.type r.id] := by
  simp [sync_dns_record, find_dns_record, hl, hsome, hne, update_dns_record_eq]

/-- When the list call fails, the swallowed exception is indistinguishable
from "no record found", so sync lists then creates. -/
theorem sync_dns_record_eq_listerr (b : ProviderBehavior)
    (zone_id record_type hostname public_ip : String)
    (hl : b.listResp = ListResult.err) :
    sync_dns_record b zone_id record_type hostname public_ip
      = [ApiCall.list zone_id,
         ApiCall.create zone_id public_ip hostname record_type 1 false] := by
  simp [sync_dns_record, find_dns_record, hl, create_dns_record_eq]

/-- Trace of an IPv4 lookup: exactly one lookup event, success or not. -/
theorem get_public_ip_trace4 (b : Nat → HttpResult) :
    (get_public_ip b 4).2 = [Event.ipLookup 4] := by
  unfold get_public_ip fetchIp
  cases b 4 <;> rfl

/-- Trace of an IPv6 lookup: exactly one lookup event, success or not. -/
theorem get_public_ip_trace6 (b : Nat → HttpResult) :
    (get_public_ip b 6).2 = [Event.ipLookup 6] := by
  unfold get_public_ip fetchIp
  cases b 6 <;> rfl

/-- The scan returns `none` exactly when no record matches. -/
theorem findFirst_eq_none_iff (record_type hostname : String) (records : List DnsRecord) :
    findFirst record_type hostname records = none ↔
      ∀ r ∈ records, ¬(r.type = record_type ∧ r.name = hostname) := by
  induction records with
  | nil => simp [findFirst]
  | cons a rest ih =>
      by_cases ha : a.type = record_type ∧ a.name = hostname
      · simp [findFirst, ha]
      · rw [findFirst, if_neg ha, ih]
        simp only [List.mem_cons]
        constructor
        · rintro h r (rfl | hr)
          · exact ha
          · exact h r hr
        · exact fun h r hr => h r (Or.inr hr)

/-- The scan returns the first match: the returned record matches, and
every record before it in the sequence does not. -/
theorem findFirst_eq_some (record_type hostname : String) (records : List DnsRecord)
    (r : DnsRecord) (h : findFirst record_type hostname records = some r) :
    ∃ pre post, records = pre ++ r :: post ∧
      (r.type = record_type ∧ r.name = hostname) ∧
      ∀ x ∈ pre, ¬(x.type = record_type ∧ x.name = hostname) := by
  induction records with
  | nil => simp [findFirst] at h
  | cons a rest ih =>
      by_cases ha : a.type = record_type ∧ a.name = hostname
      · rw [findFirst, if_pos ha] at h
        obtain rfl : a = r := Option.some.inj h
        exact ⟨[], rest, rfl, ha, by simp⟩
      · rw [findFirst, if_neg ha] at h
        obtain ⟨pre, post, hrec, hr, hpre⟩ := ih h
        refine ⟨a :: pre, post, by simp [hrec], hr, ?_⟩
        intro x hx
        rcases List.mem_cons.mp hx with h1 | h2
        · simpa [h1] using ha
        · exact hpre x h2

/-- Provider API events are never reconciler-invocation events. -/
theorem filter_isSyncFor_map_api (t : String) (l : List ApiCall) :
    (l.map Event.api).filter (isSyncFor t) = [] := by
  induction l with
  | nil => rfl
  | cons c cs ih => simp [isSyncFor, ih]

/-- Provider API events are never IP-lookup events. -/
theorem filter_isLookup_map_api (v : Nat) (l : List ApiCall) :
    (l.map Event.api).filter (isLookup v) = [] := by
  induction l with
  | nil => rfl
  | cons c cs ih => simp [isLookup, ih]

/-- Delete events in a mapped provider trace come from delete calls. -/
theorem filter_isDeleteEvent_map_api (l : List ApiCall) :
    (l.map Event.api).filter isDeleteEvent = (l.filter isDeleteCall).map Event.api := by
  induction l with
  | nil => rfl
  | cons c cs ih =>
      cases hc : isDeleteCall c <;> simp [isDeleteEvent, hc, ih]

/-- The reconciler never issues a delete call, whatever the provider
returns. -/
theorem sync_dns_record_no_delete (b : ProviderBehavior)
    (zone_id record_type hostname public_ip : String) :
    (sync_dns_record b zone_id record_type hostname public_ip).filter isDeleteCall = [] := by
  cases hb : b.listResp with
  | err => simp [sync_dns_record_eq_listerr b _ _ _ _ hb, isDeleteCall]
  | ok records =>
      cases hf : findFirst record_type hostname records with
      | none => simp [sync_dns_record_eq_create b records _ _ _ _ hb hf, isDeleteCall]
      | some r =>
          by_cases hc : r.content = public_ip
          · simp [sync_dns_record_eq_noop b records r _ _ _ _ hb hf hc, isDeleteCall]
          · simp [sync_dns_record_eq_update b records r _ _ _ _ hb hf hc, isDeleteCall]

/-- Reconciler invocations for record type `t` in a guarded sync block:
one when the type matches and the fetched IP is truthy, none otherwise. -/
theorem maybeSync_filter_syncFor (t : String) (pb : ProviderBehavior)
    (zone_id record_type hostname : String) (ip : Option String) :
    (maybeSync pb zone_id record_type hostname ip).filter (isSyncFor t)
      = if (record_type == t) && truthy ip then
          [Event.sync zone_id record_type hostname (ip.getD "")] else [] := by
  unfold maybeSync syncEvents
  cases hip : truthy ip <;>
    cases hrt : record_type == t <;>
      simp [isSyncFor, hrt, filter_isSyncFor_map_api]

/-- A guarded sync block contains no IP-lookup events. -/
theorem maybeSync_filter_lookup (v : Nat) (pb : ProviderBehavior)
    (zone_id record_type hostname : String) (ip : Option String) :
    (maybeSync pb zone_id record_type hostname ip).filter (isLookup v) = [] := by
  unfold maybeSync syncEvents
  cases hip : truthy ip <;> simp [isLookup, filter_isLookup_map_api]

/-- A guarded sync block contains no delete events. -/
theorem maybeSync_filter_delete (pb : ProviderBehavior)
    (zone_id record_type hostname : String) (ip : Option String) :
    (maybeSync pb zone_id record_type hostname ip).filter isDeleteEvent = [] := by
  unfold maybeSync syncEvents
  cases hip : truthy ip <;>
    simp [isDeleteEvent, filter_isDeleteEvent_map_api, sync_dns_record_no_delete]

/-- The trace of a run that passes the configuration checks: the two
unconditional lookups, then the three flag branches. -/
theorem main_run_trace (env : Env) (args : Args) (ib : Nat → HttpResult) (pb : ProviderBehavior)
    (ht : truthy env.cf_token = true) (hh : truthy env.cf_hostname = true)
    (hz : truthy env.cf_zone_id = true) :
    main_run env args ib pb
      = (Except.ok (),
         Event.ipLookup 4 :: Event.ipLookup 6 ::
         ((if args.both || (!args.ipv4 && !args.ipv6) then
             Event.ipLookup 4 :: Event.ipLookup 6 ::
               (maybeSync pb (env.cf_zone_id.getD "") "A" (env.cf_hostname.getD "")
                 (ipValue (get_public_ip ib 4).1) ++
                maybeSync pb (env.cf_zone_id.getD "") "AAAA" (env.cf_hostname.getD "")
                 (ipValue (get_public_ip ib 6).1))
           else []) ++
          ((if args.ipv4 then
              Event.ipLookup 4 ::
                maybeSync pb (env.cf_zone_id.getD "") "A" (env.cf_hostname.getD "")
                  (ipValue (get_public_ip ib 4).1)
            else []) ++
           (if args.ipv6 then
              Event.ipLookup 6 ::
                maybeSync pb (env.cf_zone_id.getD "") "AAAA" (env.cf_hostname.getD "")
                  (ipValue (get_public_ip ib 6).1)
            else [])))) := by
  unfold main_run get_cloudflare_client
  rw [ht, hh, hz]
  simp [get_public_ip_trace4, get_public_ip_trace6]

/-- C1: for every list of existing records, desired IP and (type, hostname)
pair, a single call to sync issues exactly the mutation dictated by the
lookup: no match gives exactly one create with the desired content and no
update; a match with equal content gives no create and no update; a match
with different content gives exactly one update carrying the existing
record's identifier and the new content, and no create. -/
theorem sync_issues_exactly_dictated_mutation
    (b : ProviderBehavior) (records : List DnsRecord)
    (zone_id record_type hostname public_ip : String)
    (hl : b.listResp = ListResult.ok records) :
    (findFirst record_type hostname records = none →
      (sync_dns_record b zone_id record_type hostname public_ip).filter isCreate
        = [ApiCall.create zone_id public_ip hostname record_type 1 false] ∧
      (sync_dns_record b zone_id record_type hostname public_ip).filter isUpdate = []) ∧
    (∀ r, findFirst record_type hostname records = some r →
      (r.content = public_ip →
        (sync_dns_record b zone_id record_type hostname public_ip).filter isCreate = [] ∧
        (sync_dns_record b zone_id record_type hostname public_ip).filter isUpdate = []) ∧
      (r.content ≠ public_ip →
        (sync_dns_record b zone_id record_type hostname public_ip).filter isCreate = [] ∧
        (sync_dns_record b zone_id record_type hostname public_ip).filter isUpdate
          = [ApiCall.update r.zone_id hostname public_ip r.type r.id])) := by
  refine ⟨fun hnone => ?_, fun r hsome => ⟨fun heq => ?_, fun hne => ?_⟩⟩
  · rw [sync_dns_record_eq_create b records _ _ _ _ hl hnone]
    exact ⟨by simp [isCreate], by simp [isUpdate]⟩
  · rw [sync_dns_record_eq_noop b records r _ _ _ _ hl hsome heq]
    exact ⟨by simp [isCreate], by simp [isUpdate]⟩
  · rw [sync_dns_record_eq_update b records r _ _ _ _ hl hsome hne]
    exact ⟨by simp [isCreate], by simp [isUpdate]⟩

/-- Witness for C1: an empty zone, so sync creates exactly once. -/
theorem sync_issues_exactly_dictated_mutation_witness :
    (sync_dns_record ⟨ListResult.ok [], false, false⟩ "z1" "A" "home.example.com"
        "1.2.3.4").filter isCreate
      = [ApiCall.create "z1" "1.2.3.4" "home.example.com" "A" 1 false] ∧
    (sync_dns_record ⟨ListResult.ok [], false, false⟩ "z1" "A" "home.example.com"
        "1.2.3.4").filter isUpdate = [] :=
  (sync_issues_exactly_dictated_mutation ⟨ListResult.ok [], false, false⟩ []
      "z1" "A" "home.example.com" "1.2.3.4" rfl).1 rfl

/-- C2: evaluation at the failing input — when the list call fails, the
run does not leave the provider untouched: the swallowed exception is
indistinguishable from "no record found", so sync issues a create call
(even though a matching, up-to-date record may exist in the zone). -/
theorem listerr_run_still_issues_create :
    sync_dns_record ⟨ListResult.err, false, false⟩ "z1" "A" "home.example.com" "1.2.3.4"
      = [ApiCall.list "z1",
         ApiCall.create "z1" "1.2.3.4" "home.example.com" "A" 1 false] := by
  rfl

/-- C4: for any version other than 4 or 6 the resolver raises a
ValueError: the result is the invalid-argument error and the trace is
empty, so no lookup was performed and no value returned. -/
theorem get_public_ip_invalid_version (b : Nat → HttpResult) (v : Nat)
    (h4 : v ≠ 4) (h6 : v ≠ 6) :
    get_public_ip b v = (Except.error "IP version should be 4 or 6", []) := by
  simp [get_public_ip, h4, h6]

/-- Witness for C4 at version 5. -/
theorem get_public_ip_invalid_version_witness :
    get_public_ip (fun _ => HttpResult.err) 5
      = (Except.error "IP version should be 4 or 6", []) :=
  get_public_ip_invalid_version (fun _ => HttpResult.err) 5 (by decide) (by decide)

/-- C8: with a successful list response, the lookup returns none exactly
when no record matches (type, hostname), and any returned record is the
first match: it matches, and every record before it does not. -/
theorem find_dns_record_first_match
    (b : ProviderBehavior) (records : List DnsRecord)
    (zone_id record_type hostname : String)
    (hl : b.listResp = ListResult.ok records) :
    ((find_dns_record b zone_id record_type hostname).1 = none ↔
       ∀ r ∈ records, ¬(r.type = record_type ∧ r.name = hostname)) ∧
    (∀ r, (find_dns_record b zone_id record_type hostname).1 = some r →
       ∃ pre post, records = pre ++ r :: post ∧
         (r.type = record_type ∧ r.name = hostname) ∧
         ∀ x ∈ pre, ¬(x.type = record_type ∧ x.name = hostname)) := by
  have h1 : (find_dns_record b zone_id record_type hostname).1
      = findFirst record_type hostname records := by
    simp [find_dns_record, hl]
  rw [h1]
  exact ⟨findFirst_eq_none_iff _ _ _, fun r h => findFirst_eq_some _ _ _ r h⟩

/-- Witness for C8: two records match (type, hostname); the lookup
returns the first and the second is never used. -/
theorem find_dns_record_first_match_witness :
    ∃ pre post,
      [DnsRecord.mk "A" "home.example.com" "1.2.3.4" "id1" "z1",
       DnsRecord.mk "A" "home.example.com" "5.6.7.8" "id2" "z1"]
        = pre ++ DnsRecord.mk "A" "home.example.com" "1.2.3.4" "id1" "z1" :: post ∧
      ((DnsRecord.mk "A" "home.example.com" "1.2.3.4" "id1" "z1").type = "A" ∧
       (DnsRecord.mk "A" "home.example.com" "1.2.3.4" "id1" "z1").name = "home.example.com") ∧
      ∀ x ∈ pre, ¬(x.type = "A" ∧ x.name = "home.example.com") :=
  (find_dns_record_first_match
      ⟨ListResult.ok
        [DnsRecord.mk "A" "home.example.com" "1.2.3.4" "id1" "z1",
         DnsRecord.mk "A" "home.example.com" "5.6.7.8" "id2" "z1"], false, false⟩
      [DnsRecord.mk "A" "home.example.com" "1.2.3.4" "id1" "z1",
       DnsRecord.mk "A" "home.example.com" "5.6.7.8" "id2" "z1"]
      "z1" "A" "home.example.com" rfl).2
    (DnsRecord.mk "A" "home.example.com" "1.2.3.4" "id1" "z1") (by decide)

/-- Any create call in a sync trace has TTL 1 and proxying disabled. -/
theorem sync_dns_record_create_mem (b : ProviderBehavior)
    (zone_id record_type hostname public_ip z c n rt : String) (ttl : Nat) (px : Bool)
    (hm : ApiCall.create z c n rt ttl px
            ∈ sync_dns_record b zone_id record_type hostname public_ip) :
    ttl = 1 ∧ px = false := by
  cases hb : b.listResp with
  | err =>
      rw [sync_dns_record_eq_listerr b _ _ _ _ hb] at hm
      simp only [List.mem_cons, List.not_mem_nil, or_false] at hm
      rcases hm with h | h
      · exact absurd h (by simp)
      · obtain ⟨_, _, _, _, h5, h6⟩ := ApiCall.create.inj h
        exact ⟨h5, h6⟩
  | ok records =>
      cases hf : findFirst record_type hostname records with
      | none =>
          rw [sync_dns_record_eq_create b records _ _ _ _ hb hf] at hm
          simp only [List.mem_cons, List.not_mem_nil, or_false] at hm
          rcases hm with h | h
          · exact absurd h (by simp)
          · obtain ⟨_, _, _, _, h5, h6⟩ := ApiCall.create.inj h
            exact ⟨h5, h6⟩
      | some r =>
          by_cases hc : r.content = public_ip
          · rw [sync_dns_record_eq_noop b records r _ _ _ _ hb hf hc] at hm
            simp at hm
          · rw [sync_dns_record_eq_update b records r _ _ _ _ hb hf hc] at hm
            simp at hm

/-- Any create event in a guarded sync block has TTL 1 and proxying
disabled. -/
theorem maybeSync_create_mem (pb : ProviderBehavior)
    (zone_id record_type hostname z c n rt : String) (ip : Option String)
    (ttl : Nat) (px : Bool)
    (hm : Event.api (ApiCall.create z c n rt ttl px)
            ∈ maybeSync pb zone_id record_type hostname ip) :
    ttl = 1 ∧ px = false := by
  unfold maybeSync syncEvents at hm
  cases hip : truthy ip <;> rw [hip] at hm
  · simp at hm
  · simp only [if_pos] at hm
    rcases List.mem_cons.mp hm with h | h
    · exact absurd h (by simp)
    · obtain ⟨call, hcall, heq⟩ := List.mem_map.mp h
      obtain rfl : call = ApiCall.create z c n rt ttl px := by
        cases Event.api.inj heq
        rfl
      exact sync_dns_record_create_mem pb _ _ _ _ _ _ _ _ _ _ hcall

/-- C6: every create call issued by the tool requests the provider's
automatic TTL (ttl = 1) and has proxying disabled (proxied = false), for
every zone, type, hostname and content — the create wrapper always
issues exactly that call and returns normally even when the provider
raises (the failure is swallowed), and every create event in any full
run's trace carries ttl 1 and proxied false. -/
theorem create_always_automatic_ttl_unproxied
    (b : ProviderBehavior) (zone_id record_type hostname content : String)
    (env : Env) (args : Args) (ib : Nat → HttpResult)
    (z c n rt : String) (ttl : Nat) (px : Bool) :
    create_dns_record b zone_id record_type hostname content
      = ((), [ApiCall.create zone_id content hostname record_type 1 false]) ∧
    (Event.api (ApiCall.create z c n rt ttl px) ∈ (main_run env args ib b).2 →
      ttl = 1 ∧ px = false) := by
  refine ⟨create_dns_record_eq b zone_id record_type hostname content, fun hm => ?_⟩
  by_cases ht : truthy env.cf_token = true
  · by_cases hh : truthy env.cf_hostname = true
    · by_cases hz : truthy env.cf_zone_id = true
      · rw [main_run_trace env args ib b ht hh hz] at hm
        simp only [List.mem_cons, List.mem_append] at hm
        rcases hm with h | h | h
        · exact absurd h (by simp)
        · exact absurd h (by simp)
        · rcases h with h | h | h
          · split at h
            · simp only [List.mem_cons, List.mem_append] at h
              rcases h with h | h | h | h
              · exact absurd h (by simp)
              · exact absurd h (by simp)
              · exact maybeSync_create_mem b _ _ _ _ _ _ _ _ _ _ h
              · exact maybeSync_create_mem b _ _ _ _ _ _ _ _ _ _ h
            · simp at h
          · split at h
            · rcases List.mem_cons.mp h with h | h
              · exact absurd h (by simp)
              · exact maybeSync_create_mem b _ _ _ _ _ _ _ _ _ _ h
            · simp at h
          · split at h
            · rcases List.mem_cons.mp h with h | h
              · exact absurd h (by simp)
              · exact maybeSync_create_mem b _ _ _ _ _ _ _ _ _ _ h
            · simp at h
      · unfold main_run get_cloudflare_client at hm
        rw [ht] at hm
        simp [hh, eq_false_of_ne_true hz] at hm
    · unfold main_run get_cloudflare_client at hm
      rw [ht] at hm
      simp [eq_false_of_ne_true hh] at hm
  · unfold main_run get_cloudflare_client at hm
    rw [eq_false_of_ne_true ht] at hm
    simp at hm

/-- Witness for C6: a concrete run against an empty zone issues its
create with ttl 1 and proxied false, and the wrapper's single call has
that exact shape. -/
theorem create_always_automatic_ttl_unproxied_witness :
    create_dns_record ⟨ListResult.ok [], true, false⟩ "z1" "A" "home.example.com" "1.2.3.4"
      = ((), [ApiCall.create "z1" "1.2.3.4" "home.example.com" "A" 1 false]) ∧
    (1 = 1 ∧ false = false) :=
  have h := create_always_automatic_ttl_unproxied
    ⟨ListResult.ok [], true, false⟩ "z1" "A" "home.example.com" "1.2.3.4"
    ⟨some "tok", some "home.example.com", some "z1"⟩ ⟨false, false, false⟩
    (fun _ => HttpResult.ok "1.2.3.4")
    "z1" "1.2.3.4" "home.example.com" "A" 1 false
  ⟨h.1, h.2 (by decide)⟩

/-- Predicate deciding whether a run outcome is an uncaught exception. -/
def isError : Except String Unit → Bool
  | Except.error _ => true
  | Except.ok _ => false

/-- C7: if any of CF_TOKEN, CF_HOSTNAME, CF_ZONE-ID is absent (or empty),
the run aborts with an error and its event trace is empty: no IP
resolution and no provider API call was made. -/
theorem missing_env_aborts_before_network
    (env : Env) (args : Args) (ib : Nat → HttpResult) (pb : ProviderBehavior)
    (h : truthy env.cf_token = false ∨ truthy env.cf_hostname = false ∨
         truthy env.cf_zone_id = false) :
    isError (main_run env args ib pb).1 = true ∧ (main_run env args ib pb).2 = [] := by
  unfold main_run get_cloudflare_client
  rcases h with h | h | h
  · simp [h, isError]
  · cases ht : truthy env.cf_token <;> simp [h, isError]
  · cases ht : truthy env.cf_token <;> cases hh : truthy env.cf_hostname <;>
      simp [h, isError]

/-- Witness for C7: CF_TOKEN absent aborts with an empty trace. -/
theorem missing_env_aborts_before_network_witness :
    isError (main_run ⟨none, some "home.example.com", some "z1"⟩ ⟨false, false, false⟩
        (fun _ => HttpResult.ok "1.2.3.4") ⟨ListResult.ok [], false, false⟩).1 = true ∧
    (main_run ⟨none, some "home.example.com", some "z1"⟩ ⟨false, false, false⟩
        (fun _ => HttpResult.ok "1.2.3.4") ⟨ListResult.ok [], false, false⟩).2 = [] :=
  missing_env_aborts_before_network ⟨none, some "home.example.com", some "z1"⟩
    ⟨false, false, false⟩ (fun _ => HttpResult.ok "1.2.3.4")
    ⟨ListResult.ok [], false, false⟩ (Or.inl rfl)

/-- A run that fails a configuration check has an empty trace. -/
theorem main_run_snd_empty_of_config (env : Env) (args : Args) (ib : Nat → HttpResult)
    (pb : ProviderBehavior)
    (h : ¬(truthy env.cf_token = true ∧ truthy env.cf_hostname = true ∧
           truthy env.cf_zone_id = true)) :
    (main_run env args ib pb).2 = [] := by
  unfold main_run get_cloudflare_client
  cases ht : truthy env.cf_token with
  | false => simp
  | true =>
    cases hh : truthy env.cf_hostname with
    | false => simp
    | true =>
      cases hz : truthy env.cf_zone_id with
      | false => simp
      | true => exact absurd ⟨ht, hh, hz⟩ h

/-- A failed IPv4 lookup returns no result instead of raising. -/
theorem get_public_ip_err4 (ib : Nat → HttpResult) (h : ib 4 = HttpResult.err) :
    get_public_ip ib 4 = (Except.ok none, [Event.ipLookup 4]) := by
  simp [get_public_ip, fetchIp, h]

/-- A failed IPv6 lookup returns no result instead of raising. -/
theorem get_public_ip_err6 (ib : Nat → HttpResult) (h : ib 6 = HttpResult.err) :
    get_public_ip ib 6 = (Except.ok none, [Event.ipLookup 6]) := by
  simp [get_public_ip, fetchIp, h]

/-- When the IPv4 lookup fails, no run invokes the reconciler for A. -/
theorem main_run_no_syncA_of_ip4_err (env : Env) (args : Args) (ib : Nat → HttpResult)
    (pb : ProviderBehavior) (h4 : ib 4 = HttpResult.err) :
    (main_run env args ib pb).2.filter (isSyncFor "A") = [] := by
  by_cases hc : truthy env.cf_token = true ∧ truthy env.cf_hostname = true ∧
      truthy env.cf_zone_id = true
  · obtain ⟨ht, hh, hz⟩ := hc
    obtain ⟨a4, a6, ab⟩ := args
    rw [main_run_trace env ⟨a4, a6, ab⟩ ib pb ht hh hz]
    have hip : ipValue (get_public_ip ib 4).1 = none := by
      rw [get_public_ip_err4 ib h4]
      rfl
    have hB : (("AAAA" : String) == "A") = false := by decide
    cases ab <;> cases a4 <;> cases a6 <;>
      simp [List.filter_append, List.filter_cons, maybeSync_filter_syncFor, hip, hB,
            isSyncFor, truthy]
  · rw [main_run_snd_empty_of_config env args ib pb hc]
    rfl

/-- When the IPv6 lookup fails, no run invokes the reconciler for AAAA. -/
theorem main_run_no_syncAAAA_of_ip6_err (env : Env) (args : Args) (ib : Nat → HttpResult)
    (pb : ProviderBehavior) (h6 : ib 6 = HttpResult.err) :
    (main_run env args ib pb).2.filter (isSyncFor "AAAA") = [] := by
  by_cases hc : truthy env.cf_token = true ∧ truthy env.cf_hostname = true ∧
      truthy env.cf_zone_id = true
  · obtain ⟨ht, hh, hz⟩ := hc
    obtain ⟨a4, a6, ab⟩ := args
    rw [main_run_trace env ⟨a4, a6, ab⟩ ib pb ht hh hz]
    have hip : ipValue (get_public_ip ib 6).1 = none := by
      rw [get_public_ip_err6 ib h6]
      rfl
    have hB : (("A" : String) == "AAAA") = false := by decide
    cases ab <;> cases a4 <;> cases a6 <;>
      simp [List.filter_append, List.filter_cons, maybeSync_filter_syncFor, hip, hB,
            isSyncFor, truthy]
  · rw [main_run_snd_empty_of_config env args ib pb hc]
    rfl

/-- The AAAA reconciler invocations of a run depend only on the IPv6
endpoint's behaviour. -/
theorem main_run_syncAAAA_congr (env : Env) (args : Args) (ib ib' : Nat → HttpResult)
    (pb : ProviderBehavior) (h6 : ib' 6 = ib 6) :
    (main_run env args ib' pb).2.filter (isSyncFor "AAAA")
      = (main_run env args ib pb).2.filter (isSyncFor "AAAA") := by
  by_cases hc : truthy env.cf_token = true ∧ truthy env.cf_hostname = true ∧
      truthy env.cf_zone_id = true
  · obtain ⟨ht, hh, hz⟩ := hc
    obtain ⟨a4, a6, ab⟩ := args
    rw [main_run_trace env ⟨a4, a6, ab⟩ ib pb ht hh hz,
        main_run_trace env ⟨a4, a6, ab⟩ ib' pb ht hh hz]
    have e6 : get_public_ip ib' 6 = get_public_ip ib 6 := by
      simp [get_public_ip, fetchIp, h6]
    rw [e6]
    have hA : (("A" : String) == "AAAA") = false := by decide
    cases ab <;> cases a4 <;> cases a6 <;>
      simp [List.filter_append, List.filter_cons, maybeSync_filter_syncFor, hA, isSyncFor]
  · rw [main_run_snd_empty_of_config env args ib pb hc,
        main_run_snd_empty_of_config env args ib' pb hc]

/-- The A reconciler invocations of a run depend only on the IPv4
endpoint's behaviour. -/
theorem main_run_syncA_congr (env : Env) (args : Args) (ib ib' : Nat → HttpResult)
    (pb : ProviderBehavior) (h4 : ib' 4 = ib 4) :
    (main_run env args ib' pb).2.filter (isSyncFor "A")
      = (main_run env args ib pb).2.filter (isSyncFor "A") := by
  by_cases hc : truthy env.cf_token = true ∧ truthy env.cf_hostname = true ∧
      truthy env.cf_zone_id = true
  · obtain ⟨ht, hh, hz⟩ := hc
    obtain ⟨a4, a6, ab⟩ := args
    rw [main_run_trace env ⟨a4, a6, ab⟩ ib pb ht hh hz,
        main_run_trace env ⟨a4, a6, ab⟩ ib' pb ht hh hz]
    have e4 : get_public_ip ib' 4 = get_public_ip ib 4 := by
      simp [get_public_ip, fetchIp, h4]
    rw [e4]
    have hB : (("AAAA" : String) == "A") = false := by decide
    cases ab <;> cases a4 <;> cases a6 <;>
      simp [List.filter_append, List.filter_cons, maybeSync_filter_syncFor, hB, isSyncFor]
  · rw [main_run_snd_empty_of_config env args ib pb hc,
        main_run_snd_empty_of_config env args ib' pb hc]

/-- C5: when the IP lookup for a family fails, the resolver returns no
result (Except.ok none) instead of raising, the reconciler is never
invoked for that family in the run, and the other family's reconciler
invocations are unaffected: they depend only on the other family's
endpoint behaviour. -/
theorem resolution_failure_skips_family
    (env : Env) (args : Args) (ib ib' : Nat → HttpResult) (pb : ProviderBehavior) :
    (ib 4 = HttpResult.err →
      get_public_ip ib 4 = (Except.ok none, [Event.ipLookup 4]) ∧
      (main_run env args ib pb).2.filter (isSyncFor "A") = [] ∧
      (ib' 6 = ib 6 →
        (main_run env args ib' pb).2.filter (isSyncFor "AAAA")
          = (main_run env args ib pb).2.filter (isSyncFor "AAAA"))) ∧
    (ib 6 = HttpResult.err →
      get_public_ip ib 6 = (Except.ok none, [Event.ipLookup 6]) ∧
      (main_run env args ib pb).2.filter (isSyncFor "AAAA") = [] ∧
      (ib' 4 = ib 4 →
        (main_run env args ib' pb).2.filter (isSyncFor "A")
          = (main_run env args ib pb).2.filter (isSyncFor "A"))) := by
  constructor
  · intro h4
    exact ⟨get_public_ip_err4 ib h4, main_run_no_syncA_of_ip4_err env args ib pb h4,
           fun h6 => main_run_syncAAAA_congr env args ib ib' pb h6⟩
  · intro h6
    exact ⟨get_public_ip_err6 ib h6, main_run_no_syncAAAA_of_ip6_err env args ib pb h6,
           fun h4 => main_run_syncA_congr env args ib ib' pb h4⟩

/-- Witness for C5: a failing IPv4 endpoint beside a healthy IPv6 one. -/
theorem resolution_failure_skips_family_witness :
    get_public_ip (fun v => if v = 4 then HttpResult.err else HttpResult.ok "2001:db8::1") 4
      = (Except.ok none, [Event.ipLookup 4]) ∧
    (main_run ⟨some "tok", some "home.example.com", some "z1"⟩ ⟨false, false, false⟩
        (fun v => if v = 4 then HttpResult.err else HttpResult.ok "2001:db8::1")
        ⟨ListResult.ok [], false, false⟩).2.filter (isSyncFor "A") = [] :=
  have h := (resolution_failure_skips_family
      ⟨some "tok", some "home.example.com", some "z1"⟩ ⟨false, false, false⟩
      (fun v => if v = 4 then HttpResult.err else HttpResult.ok "2001:db8::1")
      (fun v => if v = 4 then HttpResult.err else HttpResult.ok "2001:db8::1")
      ⟨ListResult.ok [], false, false⟩).1 rfl
  ⟨h.1, h.2.1⟩

/-- C3 (amended): the set of families reconciled is the union selected
by the flags, but counted per selecting branch: for each family, the
number of reconciler invocations in a run equals one for the
both/default branch (--both set, or neither --ipv4 nor --ipv6 set) plus
one for the family's own flag, each contributing only when that
family's lookup returned a truthy IP — so a family is reconciled twice
when --both is combined with its own flag. -/
theorem flags_union_reconcile_counts
    (env : Env) (args : Args) (ib : Nat → HttpResult) (pb : ProviderBehavior)
    (ht : truthy env.cf_token = true) (hh : truthy env.cf_hostname = true)
    (hz : truthy env.cf_zone_id = true) :
    ((main_run env args ib pb).2.filter (isSyncFor "A")).length
      = (if (args.both || (!args.ipv4 && !args.ipv6))
            && truthy (ipValue (get_public_ip ib 4).1) then 1 else 0)
        + (if args.ipv4 && truthy (ipValue (get_public_ip ib 4).1) then 1 else 0) ∧
    ((main_run env args ib pb).2.filter (isSyncFor "AAAA")).length
      = (if (args.both || (!args.ipv4 && !args.ipv6))
            && truthy (ipValue (get_public_ip ib 6).1) then 1 else 0)
        + (if args.ipv6 && truthy (ipValue (get_public_ip ib 6).1) then 1 else 0) := by
  obtain ⟨a4, a6, ab⟩ := args
  rw [main_run_trace env ⟨a4, a6, ab⟩ ib pb ht hh hz]
  have hAA : (("A" : String) == "A") = true := by decide
  have hBB : (("AAAA" : String) == "AAAA") = true := by decide
  have hAB : (("A" : String) == "AAAA") = false := by decide
  have hBA : (("AAAA" : String) == "A") = false := by decide
  cases ab <;> cases a4 <;> cases a6 <;>
    cases hip4 : truthy (ipValue (get_public_ip ib 4).1) <;>
      cases hip6 : truthy (ipValue (get_public_ip ib 6).1) <;>
        simp [List.filter_append, List.filter_cons, maybeSync_filter_syncFor,
              hAA, hBB, hAB, hBA, isSyncFor, hip4, hip6]

/-- Counterexample for C3 as stated: with --both and --ipv4 given
together and both lookups succeeding, the A family is reconciled twice
in one run, not exactly once. -/
theorem flags_reconcile_once_counterexample :
    ((main_run ⟨some "tok", some "home.example.com", some "z1"⟩ ⟨true, false, true⟩
        (fun _ => HttpResult.ok "1.2.3.4") ⟨ListResult.ok [], false, false⟩).2.filter
          (isSyncFor "A")).length = 2 ∧ (2 : Nat) ≠ 1 := by
  exact ⟨rfl, by decide⟩

/-- Witness for C3 at the default flag set: each family reconciled once. -/
theorem flags_union_reconcile_counts_witness :
    ((main_run ⟨some "tok", some "home.example.com", some "z1"⟩ ⟨false, false, false⟩
        (fun _ => HttpResult.ok "1.2.3.4") ⟨ListResult.ok [], false, false⟩).2.filter
          (isSyncFor "A")).length = 1 ∧
    ((main_run ⟨some "tok", some "home.example.com", some "z1"⟩ ⟨false, false, false⟩
        (fun _ => HttpResult.ok "1.2.3.4") ⟨ListResult.ok [], false, false⟩).2.filter
          (isSyncFor "AAAA")).length = 1 := by
  have h := flags_union_reconcile_counts
    ⟨some "tok", some "home.example.com", some "z1"⟩ ⟨false, false, false⟩
    (fun _ => HttpResult.ok "1.2.3.4") ⟨ListResult.ok [], false, false⟩ rfl rfl rfl
  refine ⟨?_, ?_⟩
  · rw [h.1]
    rfl
  · rw [h.2]
    rfl

/-- C9: no run of the tool ever issues a delete call to the provider,
for every environment, flag combination, resolver behaviour and provider
state: the delete events of any run's trace are empty, so the calls made
are contained in list, create and update. -/
theorem tool_never_deletes (env : Env) (args : Args) (ib : Nat → HttpResult)
    (pb : ProviderBehavior) :
    (main_run env args ib pb).2.filter isDeleteEvent = [] := by
  by_cases hc : truthy env.cf_token = true ∧ truthy env.cf_hostname = true ∧
      truthy env.cf_zone_id = true
  · obtain ⟨ht, hh, hz⟩ := hc
    obtain ⟨a4, a6, ab⟩ := args
    rw [main_run_trace env ⟨a4, a6, ab⟩ ib pb ht hh hz]
    cases ab <;> cases a4 <;> cases a6 <;>
      simp [List.filter_append, List.filter_cons, maybeSync_filter_delete, isDeleteEvent,
            isDeleteCall]
  · rw [main_run_snd_empty_of_config env args ib pb hc]
    rfl

/-- C10: every run that passes the configuration checks performs at
least one IPv4 and one IPv6 lookup whatever the flags are, and whenever
neither --ipv4 nor --ipv6 is given (the default and the plain --both
selection) each family's lookup is performed exactly twice. -/
theorem both_lookups_always_issued
    (env : Env) (args : Args) (ib : Nat → HttpResult) (pb : ProviderBehavior)
    (ht : truthy env.cf_token = true) (hh : truthy env.cf_hostname = true)
    (hz : truthy env.cf_zone_id = true) :
    1 ≤ ((main_run env args ib pb).2.filter (isLookup 4)).length ∧
    1 ≤ ((main_run env args ib pb).2.filter (isLookup 6)).length ∧
    (args.ipv4 = false ∧ args.ipv6 = false →
      ((main_run env args ib pb).2.filter (isLookup 4)).length = 2 ∧
      ((main_run env args ib pb).2.filter (isLookup 6)).length = 2) := by
  obtain ⟨a4, a6, ab⟩ := args
  rw [main_run_trace env ⟨a4, a6, ab⟩ ib pb ht hh hz]
  cases ab <;> cases a4 <;> cases a6 <;>
    simp [List.filter_append, List.filter_cons, maybeSync_filter_lookup, isLookup]

/-- Witness for C10: with only --both and failing endpoints, each
family's lookup still happens exactly twice. -/
theorem both_lookups_always_issued_witness :
    ((main_run ⟨some "tok", some "home.example.com", some "z1"⟩ ⟨false, false, true⟩
        (fun _ => HttpResult.err) ⟨ListResult.ok [], false, false⟩).2.filter
          (isLookup 4)).length = 2 ∧
    ((main_run ⟨some "tok", some "home.example.com", some "z1"⟩ ⟨false, false, true⟩
        (fun _ => HttpResult.err) ⟨ListResult.ok [], false, false⟩).2.filter
          (isLookup 6)).length = 2 :=
  (both_lookups_always_issued ⟨some "tok", some "home.example.com", some "z1"⟩
      ⟨false, false, true⟩ (fun _ => HttpResult.err) ⟨ListResult.ok [], false, false⟩
      rfl rfl rfl).2.2 ⟨rfl, rfl⟩
